import Mathlib

/-!
Shallow embedding of the FantasyPros MCP server (src/index.ts): the tool
registry, the call dispatcher, the five request builders and the error
handling of the call handler, together with theorems checking the
natural-language specification against them.
-/

namespace FantasyPros

/-- The argument mapping of an inbound tool call.  The TypeScript handlers
destructure a dynamic `args` object; each field a handler may read is
modelled as an `Option` (`none` = the JavaScript property is `undefined`).
`limit` is a number in the declared schema, the remaining fields are
strings. -/
structure Args where
  sport : Option String := none
  limit : Option Nat := none
  category : Option String := none
  playerId : Option String := none
  position : Option String := none
  scoring : Option String := none
  season : Option String := none
  week : Option String := none
deriving DecidableEq, Repr

/-- JavaScript string interpolation of a possibly-undefined value:
`` `/${sport}/news` `` renders `undefined` as the string "undefined". -/
def jsStr : Option String → String
  | none => "undefined"
  | some s => s

/-- JavaScript truthiness of an optional string: `undefined` and the empty
string are falsy, every other string is truthy (`if (category) ...`). -/
def jsTruthy : Option String → Bool
  | none => false
  | some s => s ≠ ""

/-- The upstream request a builder produces: a path (relative to the
axios base URL) and its query parameters, in insertion order.  Number
values (the `limit` parameter) are rendered in decimal, as axios does. -/
structure UpstreamRequest where
  path : String
  queryParams : List (String × String)
deriving DecidableEq, Repr

/-- `getNews` (src/index.ts:210-224): destructures `{ sport, limit = 25,
category }`, always sends `limit` (defaulted to 25 only when `undefined`),
adds `category` only when truthy, and GETs `/{sport}/news`. -/
def getNews (args : Args) : UpstreamRequest :=
  let limit := args.limit.getD 25
  let params := [("limit", toString limit)] ++
    (if jsTruthy args.category then [("category", jsStr args.category)] else [])
  { path := "/" ++ jsStr args.sport ++ "/news", queryParams := params }

/-- `getPlayers` (src/index.ts:226-240): destructures `{ sport, playerId }`,
adds `player` only when `playerId` is truthy, and GETs `/{sport}/players`. -/
def getPlayers (args : Args) : UpstreamRequest :=
  let params := if jsTruthy args.playerId then [("player", jsStr args.playerId)] else []
  { path := "/" ++ jsStr args.sport ++ "/players", queryParams := params }

/-- `getRankings` (src/index.ts:242-262): destructures `{ sport,
position = 'ALL', scoring = 'STD' }`, takes the season from
`new Date().getFullYear()` (modelled as the `year` argument), always sends
both `position` and `scoring`, and GETs `/{sport}/{season}/consensus-rankings`.
The destructuring defaults fire only when the property is `undefined`. -/
def getRankings (args : Args) (year : Nat) : UpstreamRequest :=
  let position := args.position.getD "ALL"
  let scoring := args.scoring.getD "STD"
  { path := "/" ++ jsStr args.sport ++ "/" ++ toString year ++ "/consensus-rankings",
    queryParams := [("position", position), ("scoring", scoring)] }

/-- `getProjections` (src/index.ts:264-282): destructures `{ sport, season,
week, position }`, adds `week` and `position` only when truthy, and GETs
`/{sport}/{season}/projections`. -/
def getProjections (args : Args) : UpstreamRequest :=
  let params :=
    (if jsTruthy args.week then [("week", jsStr args.week)] else []) ++
    (if jsTruthy args.position then [("position", jsStr args.position)] else [])
  { path := "/" ++ jsStr args.sport ++ "/" ++ jsStr args.season ++ "/projections",
    queryParams := params }

/-- `getAllNews` (src/index.ts:284-298): like `getNews` but with the fixed
path `/json/all/news`. -/
def getAllNews (args : Args) : UpstreamRequest :=
  let limit := args.limit.getD 25
  let params := [("limit", toString limit)] ++
    (if jsTruthy args.category then [("category", jsStr args.category)] else [])
  { path := "/json/all/news", queryParams := params }

/-- An inbound tool call: `request.params.name` and
`request.params.arguments`. -/
structure ToolCall where
  name : String
  args : Args := {}
deriving DecidableEq, Repr

/-- What the dispatcher's `switch` decides for a call: either the upstream
GET request the matching builder constructs, or the `McpError` with code
`MethodNotFound` thrown by the `default` branch (src/index.ts:185-189). -/
inductive DispatchResult where
  | request (r : UpstreamRequest)
  | methodNotFound (msg : String)
deriving DecidableEq, Repr

/-- Whether the dispatch outcome issues an HTTP request. -/
def DispatchResult.issuesRequest : DispatchResult → Bool
  | .request _ => true
  | .methodNotFound _ => false

/-- The names of the five registered tools, in registry order. -/
def toolNames : List String :=
  ["get_sport_news", "get_players", "get_rankings", "get_projections", "get_all_news"]

/-- The `switch (request.params.name)` of the call handler
(src/index.ts:172-190), with the wall-clock year at call time passed
explicitly. -/
def dispatch (c : ToolCall) (year : Nat) : DispatchResult :=
  if c.name = "get_sport_news" then .request (getNews c.args)
  else if c.name = "get_players" then .request (getPlayers c.args)
  else if c.name = "get_rankings" then .request (getRankings c.args year)
  else if c.name = "get_projections" then .request (getProjections c.args)
  else if c.name = "get_all_news" then .request (getAllNews c.args)
  else .methodNotFound ("Unknown tool: " ++ c.name)

/-- An axios error as the catch block reads it: `error.message` (the
transport message, e.g. "Request failed with status code 500") and
`error.response?.data?.message`, the optional `message` field of the
upstream response body. -/
structure AxiosError where
  message : String
  responseMessage : Option String
deriving DecidableEq, Repr

/-- The outcome of the single upstream HTTP round trip: a JSON body
(opaque, already serialized) or an axios error (network failure or
non-2xx status). -/
inductive HttpOutcome where
  | success (body : String)
  | failure (e : AxiosError)
deriving DecidableEq, Repr

/-- The tool result the call handler returns: one text content item and
the `isError` flag (absent on success, modelled as `false`). -/
structure CallResult where
  text : String
  isError : Bool
deriving DecidableEq, Repr

/-- The catch block's message (src/index.ts:197-199):
`` `FantasyPros API error: ${error.response?.data?.message || error.message}` ``.
`||` falls back to `error.message` when the response message is absent
or falsy (the empty string). -/
def errorText (e : AxiosError) : String :=
  "FantasyPros API error: " ++
    (if jsTruthy e.responseMessage then jsStr e.responseMessage else e.message)

/-- The whole call handler (src/index.ts:172-207): dispatch, await the
HTTP round trip, and catch.  `Except.error` models an exception leaving
the handler (the rethrown `McpError` for an unknown tool); axios errors
are converted to an error-flagged result and returned normally. -/
def handleCall (c : ToolCall) (year : Nat) (outcome : HttpOutcome) :
    Except String CallResult :=
  match dispatch c year with
  | .methodNotFound msg => .error msg
  | .request _ =>
    match outcome with
    | .success body => .ok { text := body, isError := false }
    | .failure e => .ok { text := errorText e, isError := true }

/-- A property of a JSON-schema `properties` object: its `type`, optional
`enum`, `description`, and optional numeric bounds, as written in the
registry (src/index.ts:51-170). -/
structure PropertySchema where
  type : String
  enum : Option (List String) := none
  description : String
  minimum : Option Nat := none
  maximum : Option Nat := none
deriving DecidableEq, Repr

/-- A tool's declared input schema: always `type: 'object'` with named
properties and a list of required property names. -/
structure InputSchema where
  type : String := "object"
  properties : List (String × PropertySchema)
  required : List String := []
deriving DecidableEq, Repr

/-- One entry of the `tools` array returned by the list-tools handler. -/
structure ToolDefinition where
  name : String
  description : String
  inputSchema : InputSchema
deriving DecidableEq, Repr

/-- The static tool registry returned by the `ListToolsRequestSchema`
handler (src/index.ts:51-170), transcribed entry for entry. -/
def listTools : List ToolDefinition :=
  [ { name := "get_sport_news",
      description := "Get news for a specific sport",
      inputSchema :=
        { properties :=
            [ ("sport",
               { type := "string",
                 enum := some ["nfl", "mlb", "nba", "nhl"],
                 description := "Sport to get news for" }),
              ("limit",
               { type := "number",
                 description := "Number of news items to return (max 25)",
                 minimum := some 1,
                 maximum := some 25 }),
              ("category",
               { type := "string",
                 enum := some ["injury", "recap", "transaction", "rumor", "breaking"],
                 description := "Type of news to show" }) ],
          required := ["sport"] } },
    { name := "get_players",
      description := "Get player information for a specific sport",
      inputSchema :=
        { properties :=
            [ ("sport",
               { type := "string",
                 enum := some ["nfl", "mlb", "nba", "nhl"],
                 description := "Sport to get players for" }),
              ("playerId",
               { type := "string",
                 description := "Filter by specific player ID" }) ],
          required := ["sport"] } },
    { name := "get_rankings",
      description := "Get consensus rankings for a sport",
      inputSchema :=
        { properties :=
            [ ("sport",
               { type := "string",
                 enum := some ["nfl", "nba"],
                 description := "Sport to get rankings for" }),
              ("position",
               { type := "string",
                 description := "Position to filter by" }),
              ("scoring",
               { type := "string",
                 enum := some ["STD", "PPR", "HALF"],
                 description := "Scoring type (for NFL)" }) ],
          required := ["sport"] } },
    { name := "get_projections",
      description := "Get player projections for a sport",
      inputSchema :=
        { properties :=
            [ ("sport",
               { type := "string",
                 enum := some ["nfl", "mlb", "nba"],
                 description := "Sport to get projections for" }),
              ("season",
               { type := "string",
                 description := "Season year" }),
              ("week",
               { type := "string",
                 description := "Week number (for NFL)" }),
              ("position",
               { type := "string",
                 description := "Position to filter by" }) ],
          required := ["sport", "season"] } },
    { name := "get_all_news",
      description := "Get all news from FantasyPros",
      inputSchema :=
        { properties :=
            [ ("limit",
               { type := "number",
                 description := "Number of news items to return (max 25)",
                 minimum := some 1,
                 maximum := some 25 }),
              ("category",
               { type := "string",
                 enum := some ["injury", "recap", "transaction", "rumor", "breaking"],
                 description := "Type of news items to show" }) ],
          required := [] } } ]

/-- Look a tool up in the registry by name. -/
def findTool (n : String) : Option ToolDefinition :=
  listTools.find? (fun t => t.name = n)

/-- The required field names a registered tool declares. -/
def requiredOf (n : String) : Option (List String) :=
  (findTool n).map (fun t => t.inputSchema.required)

/-- The property schema a registered tool declares for a given property. -/
def propOf (n p : String) : Option PropertySchema :=
  (findTool n).bind (fun t => (t.inputSchema.properties.find? (fun q => q.1 = p)).map Prod.snd)

/-- The enumerated allowed values of a tool's property, when declared. -/
def enumOf (n p : String) : Option (List String) :=
  (propOf n p).bind (fun s => s.enum)

/-- The startup check on the API key (src/index.ts:12-15):
`process.env.FANTASYPROS_API_KEY` is read and `if (!API_KEY) throw`, so a
missing or empty variable is fatal before the server is constructed. -/
def initApiKey : Option String → Except String String
  | none => .error "FANTASYPROS_API_KEY environment variable is required"
  | some k =>
    if k = "" then .error "FANTASYPROS_API_KEY environment variable is required"
    else .ok k

/-- The single shared axios client configuration
(src/index.ts:34-39): base URL plus the static `x-api-key` header. -/
structure AxiosConfig where
  baseURL : String
  apiKeyHeader : String
deriving DecidableEq, Repr

/-- `axios.create({...})` in the server constructor. -/
def mkAxiosInstance (key : String) : AxiosConfig :=
  { baseURL := "https://api.fantasypros.com/public/v2",
    apiKeyHeader := key }

/-- A concrete outbound HTTP GET as the shared client issues it: the
instance headers are attached to every request made through it. -/
structure HttpRequest where
  url : String
  headers : List (String × String)
  queryParams : List (String × String)
deriving DecidableEq, Repr

/-- `this.axiosInstance.get(path, { params })`: the base URL prefixes the
path and the configured header rides along. -/
def issueGet (cfg : AxiosConfig) (r : UpstreamRequest) : HttpRequest :=
  { url := cfg.baseURL ++ r.path,
    headers := [("x-api-key", cfg.apiKeyHeader)],
    queryParams := r.queryParams }

/-! ## Theorems -/

/-- Claim C1: for every inbound tool call whose name is not one of the five
registered tools, the dispatcher fails with a method-not-found error whose
message identifies the requested name, and no HTTP request is issued for
that call. -/
theorem unknown_tool_yields_method_not_found (c : ToolCall) (y : Nat)
    (h : c.name ∉ toolNames) :
    dispatch c y = .methodNotFound ("Unknown tool: " ++ c.name) ∧
    (dispatch c y).issuesRequest = false := by
  have h1 : c.name ≠ "get_sport_news" := fun e => h (by rw [e]; decide)
  have h2 : c.name ≠ "get_players" := fun e => h (by rw [e]; decide)
  have h3 : c.name ≠ "get_rankings" := fun e => h (by rw [e]; decide)
  have h4 : c.name ≠ "get_projections" := fun e => h (by rw [e]; decide)
  have h5 : c.name ≠ "get_all_news" := fun e => h (by rw [e]; decide)
  constructor <;>
    simp [dispatch, h1, h2, h3, h4, h5, DispatchResult.issuesRequest]

/-- Witness for C1 at the concrete unknown name "foobar". -/
theorem unknown_tool_yields_method_not_found_witness :
    dispatch { name := "foobar" } 2024 =
      .methodNotFound ("Unknown tool: " ++ "foobar") ∧
    (dispatch { name := "foobar" } 2024).issuesRequest = false :=
  unknown_tool_yields_method_not_found { name := "foobar" } 2024 (by decide)

/-- Claim C4: every `get_sport_news` call with `limit` absent builds a
request to `/{sport}/news` whose query carries `limit=25`; and when
`category` is also absent the query is exactly `limit=25`, with no
`category` key at all. -/
theorem sport_news_defaults (a : Args) (s : String)
    (hs : a.sport = some s) (hl : a.limit = none) :
    (getNews a).path = "/" ++ s ++ "/news" ∧
    ("limit", "25") ∈ (getNews a).queryParams ∧
    (a.category = none →
      getNews a = { path := "/" ++ s ++ "/news", queryParams := [("limit", "25")] }) := by
  have h25 : toString ((25 : Nat)) = "25" := rfl
  refine ⟨by simp [getNews, hs, jsStr], ?_, ?_⟩
  · simp [getNews, hl, h25]
  · intro hc
    simp [getNews, hs, hl, hc, jsTruthy, jsStr, h25]

/-- Witness for C4: `{sport: "nfl", category: "injury"}` with `limit`
absent still carries `limit=25`, and `{sport: "nfl"}` alone builds the
exact default request. -/
theorem sport_news_defaults_witness :
    (getNews { sport := some "nfl", category := some "injury" }).path =
      "/" ++ "nfl" ++ "/news" ∧
    ("limit", "25") ∈
      (getNews { sport := some "nfl", category := some "injury" }).queryParams ∧
    getNews { sport := some "nfl" } =
      { path := "/" ++ "nfl" ++ "/news", queryParams := [("limit", "25")] } :=
  ⟨(sport_news_defaults { sport := some "nfl", category := some "injury" } "nfl" rfl rfl).1,
   (sport_news_defaults { sport := some "nfl", category := some "injury" } "nfl" rfl rfl).2.1,
   (sport_news_defaults { sport := some "nfl" } "nfl" rfl rfl).2.2 rfl⟩

/-- Claim C5: a `get_rankings` call with `position` and `scoring` absent
builds a request to `/{sport}/{year}/consensus-rankings` — the year being
the wall-clock year at call time — whose query is exactly `position=ALL`
and `scoring=STD`. -/
theorem rankings_defaults (a : Args) (s : String) (y : Nat)
    (hs : a.sport = some s) (hp : a.position = none) (hsc : a.scoring = none) :
    getRankings a y =
      { path := "/" ++ s ++ "/" ++ toString y ++ "/consensus-rankings",
        queryParams := [("position", "ALL"), ("scoring", "STD")] } := by
  simp [getRankings, hs, hp, hsc, jsStr]

/-- Witness for C5 at `{sport: "nfl"}` in year 2024. -/
theorem rankings_defaults_witness :
    getRankings { sport := some "nfl" } 2024 =
      { path := "/nfl/2024/consensus-rankings",
        queryParams := [("position", "ALL"), ("scoring", "STD")] } := by
  have h := rankings_defaults { sport := some "nfl" } "nfl" 2024 rfl rfl rfl
  simpa using h

/-- Claim C10: for `get_sport_news`, `get_all_news`, `get_players` and
`get_projections`, supplying an optional argument as the empty string
builds exactly the request built when it is omitted (the handlers test
JavaScript truthiness, not presence). -/
theorem empty_string_optional_behaves_as_absent (a : Args) :
    getNews { a with category := some "" } = getNews { a with category := none } ∧
    getAllNews { a with category := some "" } = getAllNews { a with category := none } ∧
    getPlayers { a with playerId := some "" } = getPlayers { a with playerId := none } ∧
    getProjections { a with week := some "" } = getProjections { a with week := none } ∧
    getProjections { a with position := some "" } =
      getProjections { a with position := none } := by
  refine ⟨?_, ?_, ?_, ?_, ?_⟩ <;>
    simp [getNews, getAllNews, getPlayers, getProjections, jsTruthy, jsStr]

/-- Counterexample to C6 as stated: the `playerId` argument is provided
(as the empty string), yet the built request has no `player` query key,
so "player key if and only if playerId is provided" fails. -/
theorem players_empty_playerId_counterexample :
    ({ sport := some "mlb", playerId := some "" } : Args).playerId = some "" ∧
    getPlayers { sport := some "mlb", playerId := some "" } =
      { path := "/mlb/players", queryParams := [] } := by
  constructor
  · rfl
  · rfl

/-- Claim C6 (amended): every `get_players` call targets `/{sport}/players`,
and the query contains a `player` key (set to `playerId`) exactly when
`playerId` is provided and non-empty; when `playerId` is absent or the
empty string, the query contains no key at all. -/
theorem players_query_key (a : Args) (s : String) (hs : a.sport = some s) :
    (getPlayers a).path = "/" ++ s ++ "/players" ∧
    (∀ p, a.playerId = some p → p ≠ "" →
      (getPlayers a).queryParams = [("player", p)]) ∧
    (a.playerId = none → (getPlayers a).queryParams = []) ∧
    (a.playerId = some "" → (getPlayers a).queryParams = []) := by
  refine ⟨by simp [getPlayers, hs, jsStr], ?_, ?_, ?_⟩
  · intro p hp hne
    simp [getPlayers, hp, jsTruthy, jsStr, hne]
  · intro hp
    simp [getPlayers, hp, jsTruthy]
  · intro hp
    simp [getPlayers, hp, jsTruthy]

/-- Witness for C6 (amended) at `{sport: "mlb", playerId: "12345"}`. -/
theorem players_query_key_witness :
    (getPlayers { sport := some "mlb", playerId := some "12345" }).path =
      "/" ++ "mlb" ++ "/players" ∧
    (getPlayers { sport := some "mlb", playerId := some "12345" }).queryParams =
      [("player", "12345")] :=
  ⟨(players_query_key { sport := some "mlb", playerId := some "12345" } "mlb" rfl).1,
   (players_query_key { sport := some "mlb", playerId := some "12345" } "mlb" rfl).2.1
     "12345" rfl (by decide)⟩

/-- Claim C7: a `get_projections` call with `week` and `position` absent
builds a request to `/{sport}/{season}/projections` with an empty query;
and in every `get_projections` request, a `week` or `position` key appears
only when the corresponding argument was provided (with that value). -/
theorem projections_defaults :
    (∀ (a : Args) (s se : String), a.sport = some s → a.season = some se →
      a.week = none → a.position = none →
      getProjections a =
        { path := "/" ++ s ++ "/" ++ se ++ "/projections", queryParams := [] }) ∧
    (∀ (a : Args) (v : String),
      ("week", v) ∈ (getProjections a).queryParams → a.week = some v) ∧
    (∀ (a : Args) (v : String),
      ("position", v) ∈ (getProjections a).queryParams → a.position = some v) := by
  refine ⟨?_, ?_, ?_⟩
  · intro a s se hs hse hw hp
    simp [getProjections, hs, hse, hw, hp, jsTruthy, jsStr]
  · intro a v hv
    simp only [getProjections, List.mem_append] at hv
    rcases hv with hv | hv
    · cases hw : a.week with
      | none => rw [hw] at hv; simp [jsTruthy] at hv
      | some w =>
        rw [hw] at hv
        split at hv
        · simp only [List.mem_singleton, Prod.mk.injEq, jsStr] at hv
          rw [hv.2]
        · simp at hv
    · split at hv <;> simp at hv
  · intro a v hv
    simp only [getProjections, List.mem_append] at hv
    rcases hv with hv | hv
    · split at hv <;> simp at hv
    · cases hp : a.position with
      | none => rw [hp] at hv; simp [jsTruthy] at hv
      | some p =>
        rw [hp] at hv
        split at hv
        · simp only [List.mem_singleton, Prod.mk.injEq, jsStr] at hv
          rw [hv.2]
        · simp at hv

/-- Witness for C7 at `{sport: "nba", season: "2024"}`. -/
theorem projections_defaults_witness :
    getProjections { sport := some "nba", season := some "2024" } =
      { path := "/" ++ "nba" ++ "/" ++ "2024" ++ "/projections", queryParams := [] } :=
  projections_defaults.1 { sport := some "nba", season := some "2024" }
    "nba" "2024" rfl rfl rfl rfl

/-- Claim C8: listing tools returns exactly the five registered entries,
in order, with the required fields, enumerated allowed values and numeric
bounds of the specification's table. -/
theorem tool_registry_matches_table :
    listTools.map ToolDefinition.name = toolNames ∧
    requiredOf "get_sport_news" = some ["sport"] ∧
    enumOf "get_sport_news" "sport" = some ["nfl", "mlb", "nba", "nhl"] ∧
    (propOf "get_sport_news" "limit").map (fun p => (p.minimum, p.maximum)) =
      some (some 1, some 25) ∧
    enumOf "get_sport_news" "category" =
      some ["injury", "recap", "transaction", "rumor", "breaking"] ∧
    requiredOf "get_players" = some ["sport"] ∧
    enumOf "get_players" "sport" = some ["nfl", "mlb", "nba", "nhl"] ∧
    requiredOf "get_rankings" = some ["sport"] ∧
    enumOf "get_rankings" "sport" = some ["nfl", "nba"] ∧
    enumOf "get_rankings" "scoring" = some ["STD", "PPR", "HALF"] ∧
    requiredOf "get_projections" = some ["sport", "season"] ∧
    enumOf "get_projections" "sport" = some ["nfl", "mlb", "nba"] ∧
    requiredOf "get_all_news" = some [] ∧
    enumOf "get_all_news" "category" =
      some ["injury", "recap", "transaction", "rumor", "breaking"] ∧
    (propOf "get_all_news" "limit").map (fun p => (p.minimum, p.maximum)) =
      some (some 1, some 25) :=
  ⟨rfl, rfl, rfl, rfl, rfl, rfl, rfl, rfl, rfl, rfl, rfl, rfl, rfl, rfl, rfl⟩

/-- Claim C9: a missing API-key environment variable is a fatal startup
error, and whenever startup succeeds the shared client is configured with
the fixed base URL and stamps the key as the `x-api-key` header on every
request issued through it. -/
theorem api_key_startup_and_header :
    initApiKey none = .error "FANTASYPROS_API_KEY environment variable is required" ∧
    (∀ k k', initApiKey (some k) = .ok k' →
      k' = k ∧
      (mkAxiosInstance k').baseURL = "https://api.fantasypros.com/public/v2" ∧
      ∀ r, ("x-api-key", k') ∈ (issueGet (mkAxiosInstance k') r).headers) := by
  refine ⟨rfl, ?_⟩
  intro k k' hk
  simp only [initApiKey] at hk
  split at hk
  · simp at hk
  · obtain rfl : k = k' := by injection hk
    exact ⟨rfl, rfl, fun r => by simp [issueGet, mkAxiosInstance]⟩

/-- Witness for C9 at the concrete key "secret" and a concrete request. -/
theorem api_key_startup_and_header_witness :
    initApiKey none = .error "FANTASYPROS_API_KEY environment variable is required" ∧
    (mkAxiosInstance "secret").baseURL = "https://api.fantasypros.com/public/v2" ∧
    ("x-api-key", "secret") ∈
      (issueGet (mkAxiosInstance "secret") { path := "/nfl/news", queryParams := [] }).headers :=
  ⟨api_key_startup_and_header.1,
   (api_key_startup_and_header.2 "secret" "secret" rfl).2.1,
   (api_key_startup_and_header.2 "secret" "secret" rfl).2.2
     { path := "/nfl/news", queryParams := [] }⟩

/-- Counterexample to C2 as stated: the upstream response's `message` field
is present (the empty string), yet the produced error text is built from
the transport message, not from the present `message` field — the `||`
fallback tests truthiness, not presence. -/
theorem upstream_empty_message_field_counterexample :
    ({ message := "Request failed with status code 500",
       responseMessage := some "" } : AxiosError).responseMessage.isSome = true ∧
    handleCall { name := "get_all_news" } 2024
      (.failure { message := "Request failed with status code 500",
                  responseMessage := some "" }) =
      .ok { text := "FantasyPros API error: Request failed with status code 500",
            isError := true } ∧
    "FantasyPros API error: Request failed with status code 500" ≠
      "FantasyPros API error: " ++ "" := by
  refine ⟨rfl, ?_, by decide⟩
  rfl

/-- Claim C2 (amended): for every tool call that reaches the HTTP client,
a failing upstream call makes the handler return (not throw) a result
flagged as an error whose non-empty message uses the upstream response's
`message` field when that field is present and non-empty, and the
transport message otherwise. -/
theorem upstream_failure_flagged_error (c : ToolCall) (y : Nat) (e : AxiosError)
    (h : (dispatch c y).issuesRequest = true) :
    handleCall c y (.failure e) = .ok { text := errorText e, isError := true } ∧
    (errorText e).length > 0 ∧
    (∀ m, e.responseMessage = some m → m ≠ "" →
      errorText e = "FantasyPros API error: " ++ m) ∧
    (e.responseMessage = none →
      errorText e = "FantasyPros API error: " ++ e.message) ∧
    (e.responseMessage = some "" →
      errorText e = "FantasyPros API error: " ++ e.message) := by
  refine ⟨?_, ?_, ?_, ?_, ?_⟩
  · unfold handleCall
    cases hd : dispatch c y with
    | methodNotFound m => rw [hd] at h; simp [DispatchResult.issuesRequest] at h
    | request r => rfl
  · unfold errorText
    rw [String.length_append]
    have : ("FantasyPros API error: ").length = 23 := rfl
    omega
  · intro m hm hne
    simp [errorText, hm, jsTruthy, jsStr, hne]
  · intro hm
    simp [errorText, hm, jsTruthy]
  · intro hm
    simp [errorText, hm, jsTruthy]

/-- Witness for C2 (amended): a failing `get_all_news` call with no
upstream message field yields the error-flagged transport-message result. -/
theorem upstream_failure_flagged_error_witness :
    handleCall { name := "get_all_news" } 2024
      (.failure { message := "Network Error", responseMessage := none }) =
      .ok { text := errorText { message := "Network Error", responseMessage := none },
            isError := true } ∧
    (errorText { message := "Network Error", responseMessage := none }).length > 0 :=
  ⟨(upstream_failure_flagged_error { name := "get_all_news" } 2024
      { message := "Network Error", responseMessage := none } rfl).1,
   (upstream_failure_flagged_error { name := "get_all_news" } 2024
      { message := "Network Error", responseMessage := none } rfl).2.1⟩

/-- Counterexample to C3 as stated: the same `get_rankings` call, with the
same argument mapping, builds different upstream requests in different
wall-clock years — the request is not a function of the ToolCall alone. -/
theorem rankings_wall_clock_counterexample :
    dispatch { name := "get_rankings", args := { sport := some "nfl" } } 2024 ≠
    dispatch { name := "get_rankings", args := { sport := some "nfl" } } 2025 := by
  decide

/-- Claim C3 (amended): the upstream request built for a ToolCall is a
deterministic function of the ToolCall and the wall-clock year at call
time; for every tool other than `get_rankings` it does not depend on the
year, so two invocations with the same argument mapping build identical
requests. -/
theorem request_determined_by_call_and_year (c : ToolCall) (y₁ y₂ : Nat)
    (h : c.name ≠ "get_rankings") :
    dispatch c y₁ = dispatch c y₂ := by
  unfold dispatch
  simp [h]

/-- Witness for C3 (amended) on a `get_players` call across two years. -/
theorem request_determined_by_call_and_year_witness :
    dispatch { name := "get_players", args := { sport := some "mlb" } } 2024 =
    dispatch { name := "get_players", args := { sport := some "mlb" } } 2025 :=
  request_determined_by_call_and_year
    { name := "get_players", args := { sport := some "mlb" } } 2024 2025 (by decide)

end FantasyPros
